import Mathlib

/-!
Verification development for the `devops-journey` weather pipeline
(`weather_to_s3.py`, `weather_analytics.py`, `view_weather_data.py`).

Strings are modelled as `List Char` (Python `str` over its code points,
restricted to the ASCII behaviour the pipeline exercises); Python floats
are modelled as exact rationals `ℚ`; fallible operations return `Option`.
Each definition is a direct shallow embedding of the Python function of
the same name.
-/

namespace Weather

/-- ASCII whitespace characters stripped by Python `str.strip()`. -/
def isSpaceChar (c : Char) : Bool :=
  c = ' ' || c = '\t' || c = '\n' || c = '\r' || c = Char.ofNat 11 || c = Char.ofNat 12

/-- Python `s.strip()`: remove leading and trailing whitespace. -/
def pyStrip (l : List Char) : List Char :=
  (((l.dropWhile isSpaceChar).reverse).dropWhile isSpaceChar).reverse

/-- Python `replace(" ", "_")` on a single character. -/
def replChar (c : Char) : Char :=
  if c = ' ' then '_' else c

/-- Python `s.replace(" ", "_")`. -/
def pyReplaceSpace (l : List Char) : List Char :=
  l.map replChar

/-- Python `str.lower()` on a single character (ASCII range). -/
def pyLowerChar (c : Char) : Char :=
  if 65 ≤ c.toNat ∧ c.toNat ≤ 90 then Char.ofNat (c.toNat + 32) else c

/-- Python `s.lower()`. -/
def pyLower (l : List Char) : List Char :=
  l.map pyLowerChar

/-- `weather_to_s3.normalize_city_for_key`:
`city.strip().replace(" ", "_").lower()`. -/
def normalize_city_for_key (city : List Char) : List Char :=
  pyLower (pyReplaceSpace (pyStrip city))

/-- The per-character action of `replace(" ", "_")` followed by
`lower()`. -/
def normChar (c : Char) : Char :=
  pyLowerChar (replChar c)

/-- A string whose first and last characters (when they exist) are not
whitespace, i.e. one on which `strip()` is the identity. -/
def okEdge (l : List Char) : Prop :=
  (∀ a, l.head? = some a → isSpaceChar a = false) ∧
  (∀ a, l.getLast? = some a → isSpaceChar a = false)

/-- A UTC timestamp broken into calendar and clock fields, as consumed by
`datetime.strftime`. -/
structure UTCDateTime where
  year : Nat
  month : Nat
  day : Nat
  hour : Nat
  minute : Nat
  second : Nat
deriving DecidableEq

/-- Decimal rendering of `n`, zero-padded on the left to width `w`
(Python `%Y`, `%m`, ... directives). -/
def padZero (w : Nat) (n : Nat) : List Char :=
  let d := Nat.toDigits 10 n
  List.replicate (w - d.length) '0' ++ d

/-- `datetime.strftime` restricted to the directives the pipeline uses
(`%Y %m %d %H %M %S`); any other character of the format string is copied
literally, exactly as CPython does. -/
def strftime (fmt : List Char) (t : UTCDateTime) : List Char :=
  match fmt with
  | [] => []
  | '%' :: c :: rest =>
    (match c with
     | 'Y' => padZero 4 t.year
     | 'm' => padZero 2 t.month
     | 'd' => padZero 2 t.day
     | 'H' => padZero 2 t.hour
     | 'M' => padZero 2 t.minute
     | 'S' => padZero 2 t.second
     | other => ['%', other]) ++ strftime rest t
  | c :: rest => c :: strftime rest t

/-- `weather_to_s3.build_s3_key`. The source passes the format string
`"H%M%S"` (note: no `%` before the `H`) for the time component. -/
def build_s3_key (city : List Char) (ts : UTCDateTime) : List Char :=
  let date_part := strftime "%Y/%m/%d".data ts
  let time_part := strftime "H%M%S".data ts
  let city_part := normalize_city_for_key city
  date_part ++ '/' :: (city_part ++ '_' :: (time_part ++ ".json".data))

/-- `view_weather_data.build_prefix_for_date_and_city`. The date is
assumed already parsed (the source raises on malformed `date_str` before
building any part); `none` models an absent filter and an empty city
string is falsy in Python, so it adds no part. The parts are joined with
`"/".join(...)`. -/
def build_prefix_for_date_and_city (date : Option UTCDateTime)
    (city : Option (List Char)) : List Char :=
  let parts₁ : List (List Char) :=
    match date with
    | none => []
    | some dt => [strftime "%Y/%m/%d".data dt]
  let parts : List (List Char) :=
    match city with
    | none => parts₁
    | some c =>
      if c = [] then parts₁
      else parts₁ ++ [pyLower (pyReplaceSpace (pyStrip c)) ++ ['_']]
  match parts with
  | [] => []
  | _ => List.intercalate ['/'] parts

/-- `weather_analytics.normalize_city_for_filter`: `None` or an empty
(falsy) city yields `None`, otherwise `city.strip().replace(" ", "_").lower()`. -/
def normalize_city_for_filter (city : Option (List Char)) : Option (List Char) :=
  match city with
  | none => none
  | some c => if c = [] then none else some (pyLower (pyReplaceSpace (pyStrip c)))

/-- `key.rsplit("/", 1)[-1]`: the part of the key after its last slash
(the whole key when it has none). -/
def filename_of_key (key : List Char) : List Char :=
  ((key.reverse).takeWhile (fun c => c ≠ '/')).reverse

/-- The city post-filter applied in `weather_analytics.main` to each listed
key: with a truthy `city_filter`, keep a key iff the filename's text before
its first underscore, lowercased, equals the filter. -/
def key_passes_city_filter (city_filter : Option (List Char)) (key : List Char) : Bool :=
  match city_filter with
  | none => true
  | some cf =>
    if cf = [] then true
    else
      let filename := filename_of_key key
      let city_part := filename.takeWhile (fun c => c ≠ '_')
      pyLower city_part = cf

/-- Outcome of one attempt of `call_openweather_api` followed by
`parse_weather_response`: either a parsed record is produced, or a
`WeatherAPIError` carrying its `retriable` flag is raised. -/
inductive FetchOutcome where
  | success
  | fail (retriable : Bool)
deriving DecidableEq

/-- Observable trace of `fetch_weather_with_retry`: whether a record was
returned, how many attempts ran, and the `time.sleep` durations (seconds,
in order). -/
structure RetryTrace where
  produced : Bool
  attemptsMade : Nat
  sleeps : List ℚ
deriving DecidableEq

/-- The `while attempt < max_attempts` loop of `fetch_weather_with_retry`,
driven by an oracle giving the outcome of each attempt (numbered from 1).
On success the record is returned; on a non-retriable error `None` is
returned at once; on a retriable error, if attempts remain the loop sleeps
for the current backoff and doubles it. Falling out of the loop returns
`None`. -/
def retryLoop (outcome : Nat → FetchOutcome) (max_attempts : Nat)
    (attempt : Nat) (backoff : ℚ) (sleeps : List ℚ) : RetryTrace :=
  if _h : attempt < max_attempts then
    let a := attempt + 1
    match outcome a with
    | .success => ⟨true, a, sleeps⟩
    | .fail retriable =>
      if retriable then
        if a < max_attempts then
          retryLoop outcome max_attempts a (backoff * 2) (sleeps ++ [backoff])
        else
          retryLoop outcome max_attempts a backoff sleeps
      else ⟨false, a, sleeps⟩
  else ⟨false, attempt, sleeps⟩
termination_by max_attempts - attempt
decreasing_by all_goals omega

/-- `weather_to_s3.fetch_weather_with_retry` (defaults: `max_attempts = 3`,
`initial_backoff_seconds = 1.0`). -/
def fetch_weather_with_retry (outcome : Nat → FetchOutcome)
    (max_attempts : Nat := 3) (initial_backoff_seconds : ℚ := 1) : RetryTrace :=
  retryLoop outcome max_attempts 0 initial_backoff_seconds []

/-- `weather_to_s3._classify_retriable`: decide whether an HTTP status code
should be retried. -/
def _classify_retriable (status_code : Option Nat) : Bool :=
  match status_code with
  | none => true
  | some s => if s = 429 then true else if 500 ≤ s ∧ s ≤ 599 then true else false

/-- What one fetch observes before classification: a transport error, or an
HTTP response with its status and whether its body is valid JSON and has
the expected structure. -/
inductive HttpFetchEvent where
  | networkError
  | httpResponse (status : Nat) (jsonOk : Bool) (structureOk : Bool)

/-- Result of a fetch attempt after classification: a parsed record, or a
`WeatherAPIError` with its `retriable` flag. -/
inductive FetchResult where
  | ok
  | err (retriable : Bool)
deriving DecidableEq

/-- `call_openweather_api` composed with `parse_weather_response`: a network
error raises `retriable=True`; a non-2xx status raises with
`_classify_retriable(status)`; a 2xx body that is not valid JSON raises
`retriable=True`; a 2xx JSON body with unexpected structure raises
`retriable=False`; otherwise a record is produced. -/
def fetch_and_parse (e : HttpFetchEvent) : FetchResult :=
  match e with
  | .networkError => .err true
  | .httpResponse status jsonOk structureOk =>
    if 200 ≤ status ∧ status < 300 then
      if jsonOk then
        if structureOk then .ok else .err false
      else .err true
    else .err (_classify_retriable (some status))

/-- Per-city environment behaviour for one `process_cities` run: the city
name, the result of `fetch_weather_with_retry` (the temperature of the
record, or `none` on fetch failure), and whether `upload_to_s3` would
succeed for it. -/
abbrev CityRun := List Char × Option ℚ × Bool

/-- The loop state of `process_cities`: success and failure counters, the
collected temperatures of uploaded cities, and the failed city names. -/
structure PipeAcc where
  success_count : Nat
  failure_count : Nat
  temps : List ℚ
  failures : List (List Char)
deriving DecidableEq

/-- One iteration of the `for city in config.cities` loop of
`process_cities`: a `None` fetch or a failed upload increments
`failure_count` and appends the city to `failures`; a successful upload
increments `success_count` and appends the record's temperature. -/
def processCity (acc : PipeAcc) (c : CityRun) : PipeAcc :=
  match c.2.1 with
  | none =>
    { acc with failure_count := acc.failure_count + 1, failures := acc.failures ++ [c.1] }
  | some temp =>
    if c.2.2 then
      { acc with success_count := acc.success_count + 1, temps := acc.temps ++ [temp] }
    else
      { acc with failure_count := acc.failure_count + 1, failures := acc.failures ++ [c.1] }

/-- Python `min(list)` as used on the non-empty temperature list
(`None` for the empty list, matching the `if temps else None` guard). -/
def listMin : List ℚ → Option ℚ
  | [] => none
  | t :: ts => some (ts.foldl min t)

/-- Python `max(list)` under the same guard. -/
def listMax : List ℚ → Option ℚ
  | [] => none
  | t :: ts => some (ts.foldl max t)

/-- `sum(temps) / len(temps) if temps else None`. -/
def listAvg (l : List ℚ) : Option ℚ :=
  match l with
  | [] => none
  | _ => some (l.sum / l.length)

/-- The summary dictionary returned by `process_cities`. -/
structure RunSummary where
  total_cities : Nat
  success_count : Nat
  failure_count : Nat
  min_temp_c : Option ℚ
  max_temp_c : Option ℚ
  avg_temp_c : Option ℚ
  failures : List (List Char)
deriving DecidableEq

/-- `weather_to_s3.process_cities`: fold the loop body over the cities and
assemble the summary. -/
def process_cities (cities : List CityRun) : RunSummary :=
  let acc := cities.foldl processCity ⟨0, 0, [], []⟩
  { total_cities := cities.length
    success_count := acc.success_count
    failure_count := acc.failure_count
    min_temp_c := listMin acc.temps
    max_temp_c := listMax acc.temps
    avg_temp_c := listAvg acc.temps
    failures := acc.failures }

/-- A city counts as failed when its fetch returned `None` or its upload
failed. -/
def isFailCity (c : CityRun) : Bool :=
  match c.2.1 with
  | none => true
  | some _ => !c.2.2

/-- The temperatures of the successfully fetched AND uploaded cities, in
input order. -/
def successTemps (cities : List CityRun) : List ℚ :=
  cities.filterMap (fun c =>
    match c.2.1 with
    | none => none
    | some t => if c.2.2 then some t else none)

/-- The names of the failed cities, in input order. -/
def failNames (cities : List CityRun) : List (List Char) :=
  (cities.filter isFailCity).map (fun c => c.1)

/-- The exit-status decision at the end of `weather_to_s3.main`, once a run
has reached processing: non-zero exactly when the summary reports at least
one failure. -/
def main_exit_code (summary : RunSummary) : Nat :=
  if summary.failure_count > 0 then 1 else 0

/-- `weather_analytics.CityStats`: accumulated statistics for a single
city. -/
structure CityStats where
  count : Nat
  temp_sum : ℚ
  temp_min : Option ℚ
  temp_max : Option ℚ
deriving DecidableEq

/-- `weather_analytics.update_stats`: fold one temperature into the
accumulator (count, running sum, running min, running max), with the float
sum idealized as exact rational addition; `update_stats_f64` below is the
variant whose accumulation is faithful IEEE 754 binary64 addition. -/
def update_stats (stats : CityStats) (temp_c : ℚ) : CityStats :=
  { count := stats.count + 1
    temp_sum := stats.temp_sum + temp_c
    temp_min :=
      match stats.temp_min with
      | none => some temp_c
      | some m => if temp_c < m then some temp_c else some m
    temp_max :=
      match stats.temp_max with
      | none => some temp_c
      | some m => if temp_c > m then some temp_c else some m }

/-- Bit length of a natural number (`0` for `0`), with enough structural
fuel (2200) to cover every numerator and denominator arising from finite
binary64 values and their exact sums. -/
def bitLenAux : Nat → Nat → Nat
  | 0, _ => 0
  | fuel + 1, n => if n = 0 then 0 else bitLenAux fuel (n / 2) + 1

/-- Bit length of a natural number. -/
def bitLen (n : Nat) : Nat := bitLenAux 2200 n

/-- `2^e` as an exact rational, for an integer exponent. -/
def twoPowZ (e : ℤ) : ℚ :=
  match e with
  | .ofNat n => mkRat (Int.ofNat (2 ^ n)) 1
  | .negSucc n => mkRat 1 (2 ^ (n + 1))

/-- For `q > 0`, the binary exponent: the `e` with `2^e ≤ q < 2^(e+1)`.
The bit lengths of numerator and denominator pin `e` to two candidates and
the comparison picks the right one. -/
def ratExp2 (q : ℚ) : ℤ :=
  let k : ℤ := (bitLen q.num.toNat : ℤ) - (bitLen q.den : ℤ)
  if twoPowZ k ≤ q then k else k - 1

/-- Round a rational to the nearest integer, ties to even (the IEEE 754
default rounding applied to an exact value scaled into integer units). -/
def roundHalfEven (x : ℚ) : ℤ :=
  let fl := Int.fdiv x.num (Int.ofNat x.den)
  let frac := x - mkRat fl 1
  if frac < mkRat 1 2 then fl
  else if mkRat 1 2 < frac then fl + 1
  else if fl % 2 = 0 then fl else fl + 1

/-- IEEE 754 binary64 rounding (round to nearest, ties to even) of an
exact rational: 53 significand bits, unit in the last place floored at
`2^-1074` (subnormal range). Overflow to infinity is not modelled; the
pipeline's temperature magnitudes are far below `2^1024`, where this
function agrees exactly with Python float semantics. -/
def roundDouble (q : ℚ) : ℚ :=
  if q = 0 then 0
  else
    let s : ℚ := if q < 0 then -1 else 1
    let aq := if q < 0 then -q else q
    let e52 := ratExp2 aq - 52
    let ulp := if e52 ≤ -1074 then -1074 else e52
    s * mkRat (roundHalfEven (aq / twoPowZ ulp)) 1 * twoPowZ ulp

/-- Python float addition: IEEE 754 binary64 addition of two double
values, i.e. the correctly rounded exact sum. -/
def f64add (a b : ℚ) : ℚ := roundDouble (a + b)

/-- `weather_analytics.update_stats` under Python's real float semantics:
identical to `update_stats` except that `stats.temp_sum += temp_c` is
binary64 addition. Comparisons of finite doubles coincide with exact
rational comparison of the values they denote, so `count`, `temp_min` and
`temp_max` evolve exactly as in `update_stats`. -/
def update_stats_f64 (stats : CityStats) (temp_c : ℚ) : CityStats :=
  { count := stats.count + 1
    temp_sum := f64add stats.temp_sum temp_c
    temp_min :=
      match stats.temp_min with
      | none => some temp_c
      | some m => if temp_c < m then some temp_c else some m
    temp_max :=
      match stats.temp_max with
      | none => some temp_c
      | some m => if temp_c > m then some temp_c else some m }

/-- The sum-free part of a `CityStats` accumulator: count, running min,
running max. -/
def statsShape (s : CityStats) : Nat × Option ℚ × Option ℚ :=
  (s.count, s.temp_min, s.temp_max)

/-- How one temperature updates the sum-free part: the `count`,
`temp_min` and `temp_max` updates of `update_stats`/`update_stats_f64`,
which never read `temp_sum`. -/
def shapeStep (p : Nat × Option ℚ × Option ℚ) (t : ℚ) :
    Nat × Option ℚ × Option ℚ :=
  (p.1 + 1,
   (match p.2.1 with
    | none => some t
    | some m => if t < m then some t else some m),
   (match p.2.2 with
    | none => some t
    | some m => if t > m then some t else some m))

/-- The fields of a downloaded weather JSON document that
`weather_analytics.main` reads: its `"city"` value (absent or a string)
and its `"temperature_c"` value (`none` when absent or not numeric). -/
structure WeatherDoc where
  city : Option (List Char)
  temperature_c : Option ℚ

/-- `str(doc.get("city") or "unknown")`: the aggregate bucket name is the
record's own city field, with the literal `unknown` substituted when that
field is missing or empty. -/
def record_city_key (c : Option (List Char)) : List Char :=
  match c with
  | none => "unknown".data
  | some s => if s = [] then "unknown".data else s

/-- The aggregation step of `weather_analytics.main` on one downloaded
document: skip it when the temperature is not numeric, otherwise update
the stats bucket named by the record's own city field. The stats table is
the `defaultdict(CityStats)`. -/
def aggregate_record (stats : List Char → CityStats) (doc : WeatherDoc) :
    List Char → CityStats :=
  match doc.temperature_c with
  | none => stats
  | some t => fun name =>
      if name = record_city_key doc.city then update_stats (stats name) t
      else stats name

/-- The full per-listed-key body of the scan loop in
`weather_analytics.main`: apply the filename city post-filter, then (when
the download produced a truthy document) aggregate the record. -/
def process_listed_key (city_filter : Option (List Char)) (key : List Char)
    (fetched : Option WeatherDoc) (stats : List Char → CityStats) :
    List Char → CityStats :=
  if key_passes_city_filter city_filter key then
    match fetched with
    | none => stats
    | some doc => aggregate_record stats doc
  else stats

end Weather

namespace Weather

/-- Claim C1 (code bug): the spec and the function docstring promise keys of
layout `YYYY/MM/DD/<city>_<HHMMSS>.json`, but the source formats the time
with `"H%M%S"` (missing `%` before `H`), so `build_s3_key("New York",
2026-02-18T14:05:09Z)` is `2026/02/18/new_york_H0509.json`, not the
documented `2026/02/18/new_york_140509.json`. -/
theorem build_s3_key_hour_directive_bug :
    build_s3_key "New York".data ⟨2026, 2, 18, 14, 5, 9⟩
      = "2026/02/18/new_york_H0509.json".data ∧
    build_s3_key "New York".data ⟨2026, 2, 18, 14, 5, 9⟩
      ≠ "2026/02/18/new_york_140509.json".data := by
  constructor
  · rfl
  · decide

/-- Claim C2 (code bug): under the city filter "New York" (normalized to
`new_york`), the listed key `2026/02/18/new_york_140509.json` is excluded,
because the code compares only the filename text before the FIRST
underscore (`new`) against the full normalized filter (`new_york`), so a
multi-word city can never match the keys the pipeline itself writes. -/
theorem city_post_filter_excludes_multiword_city :
    key_passes_city_filter (normalize_city_for_filter (some "New York".data))
      "2026/02/18/new_york_140509.json".data = false ∧
    normalize_city_for_filter (some "New York".data) = some "new_york".data := by
  constructor
  · decide
  · rfl

/-- Claim C3: under the retry wrapper with `max_attempts = 3` and
`initial_backoff_seconds = 1`, a non-retriable failure on attempt 1 gives
exactly 1 attempt, no sleep, and no record; retriable failures on attempts
1 and 2 followed by success on attempt 3 give exactly 3 attempts and
exactly 2 sleeps of 1s then 2s (backoff doubling each retry). -/
theorem retry_attempt_and_sleep_schedule (outcome : Nat → FetchOutcome) :
    (outcome 1 = .fail false →
      fetch_weather_with_retry outcome = ⟨false, 1, []⟩) ∧
    (outcome 1 = .fail true → outcome 2 = .fail true → outcome 3 = .success →
      fetch_weather_with_retry outcome = ⟨true, 3, [1, 2]⟩) := by
  constructor
  · intro h1
    rw [fetch_weather_with_retry, retryLoop]
    simp [h1]
  · intro h1 h2 h3
    rw [fetch_weather_with_retry, retryLoop]
    simp only [h1]
    norm_num
    rw [retryLoop]
    simp only [h2]
    norm_num
    rw [retryLoop]
    simp only [h3]
    norm_num

/-- Claim C3 witness: the two schedules realized by concrete outcome
oracles. -/
theorem retry_attempt_and_sleep_schedule_witness :
    fetch_weather_with_retry (fun _ => .fail false) = ⟨false, 1, []⟩ ∧
    fetch_weather_with_retry
      (fun n => if n < 3 then .fail true else .success) = ⟨true, 3, [1, 2]⟩ :=
  ⟨(retry_attempt_and_sleep_schedule _).1 rfl,
   (retry_attempt_and_sleep_schedule _).2 (by decide) (by decide) (by decide)⟩

/-- Claim C4: failure classification of a fetch. A network/transport error
is retriable; HTTP 429 is retriable; every HTTP 5xx is retriable; every
other non-2xx status is non-retriable; a 2xx body that is not valid JSON
is retriable; a 2xx JSON body lacking the expected structure is
non-retriable. -/
theorem fetch_failure_classification (s : Nat) (jsonOk structureOk : Bool) :
    fetch_and_parse .networkError = .err true ∧
    (s = 429 → fetch_and_parse (.httpResponse s jsonOk structureOk) = .err true) ∧
    (500 ≤ s ∧ s ≤ 599 →
      fetch_and_parse (.httpResponse s jsonOk structureOk) = .err true) ∧
    (¬(200 ≤ s ∧ s < 300) → s ≠ 429 → ¬(500 ≤ s ∧ s ≤ 599) →
      fetch_and_parse (.httpResponse s jsonOk structureOk) = .err false) ∧
    (200 ≤ s ∧ s < 300 → jsonOk = false →
      fetch_and_parse (.httpResponse s jsonOk structureOk) = .err true) ∧
    (200 ≤ s ∧ s < 300 → jsonOk = true → structureOk = false →
      fetch_and_parse (.httpResponse s jsonOk structureOk) = .err false) := by
  refine ⟨rfl, ?_, ?_, ?_, ?_, ?_⟩
  · intro h
    subst h
    rfl
  · intro h
    simp only [fetch_and_parse, _classify_retriable]
    split_ifs <;> first | rfl | omega
  · intro h1 h2 h3
    simp only [fetch_and_parse, _classify_retriable]
    rw [if_neg h1, if_neg h2, if_neg h3]
  · intro h1 h2
    subst h2
    simp [fetch_and_parse, h1]
  · intro h1 h2 h3
    subst h2
    subst h3
    simp [fetch_and_parse, h1]

/-- Claim C4 witness: each classification case at a concrete status. -/
theorem fetch_failure_classification_witness :
    fetch_and_parse (.httpResponse 429 true true) = .err true ∧
    fetch_and_parse (.httpResponse 503 true true) = .err true ∧
    fetch_and_parse (.httpResponse 404 true true) = .err false ∧
    fetch_and_parse (.httpResponse 200 false true) = .err true ∧
    fetch_and_parse (.httpResponse 200 true false) = .err false :=
  ⟨(fetch_failure_classification 429 true true).2.1 rfl,
   (fetch_failure_classification 503 true true).2.2.1 (by omega),
   (fetch_failure_classification 404 true true).2.2.2.1 (by omega) (by omega) (by omega),
   (fetch_failure_classification 200 false true).2.2.2.2.1 (by omega) rfl,
   (fetch_failure_classification 200 true false).2.2.2.2.2 (by omega) rfl rfl⟩

/-- Invariant of the `process_cities` loop, proved over the loop state:
counters count the failing and succeeding cities, temperatures collect the
uploaded records in order, and `failures` collects the failed names in
order. -/
lemma foldl_processCity_spec (cities : List CityRun) (acc : PipeAcc) :
    (cities.foldl processCity acc).success_count
        = acc.success_count + cities.countP (fun c => !(isFailCity c)) ∧
    (cities.foldl processCity acc).failure_count
        = acc.failure_count + cities.countP isFailCity ∧
    (cities.foldl processCity acc).temps = acc.temps ++ successTemps cities ∧
    (cities.foldl processCity acc).failures = acc.failures ++ failNames cities := by
  induction cities generalizing acc with
  | nil => simp [successTemps, failNames]
  | cons c cs ih =>
    obtain ⟨name, fetch, up⟩ := c
    cases fetch with
    | none =>
      have h := ih { acc with failure_count := acc.failure_count + 1,
                              failures := acc.failures ++ [name] }
      simp only [List.foldl_cons, processCity] at *
      refine ⟨?_, ?_, ?_, ?_⟩ <;>
        simp_all [successTemps, failNames, isFailCity, List.countP_cons] <;> omega
    | some t =>
      cases up with
      | true =>
        have h := ih { acc with success_count := acc.success_count + 1,
                                temps := acc.temps ++ [t] }
        simp only [List.foldl_cons, processCity] at *
        refine ⟨?_, ?_, ?_, ?_⟩ <;>
          simp_all [successTemps, failNames, isFailCity, List.countP_cons] <;> omega
      | false =>
        have h := ih { acc with failure_count := acc.failure_count + 1,
                                failures := acc.failures ++ [name] }
        simp only [List.foldl_cons, processCity] at *
        refine ⟨?_, ?_, ?_, ?_⟩ <;>
          simp_all [successTemps, failNames, isFailCity, List.countP_cons] <;> omega

/-- The failing and succeeding cities partition the input. -/
lemma countP_fail_add (cities : List CityRun) :
    cities.countP (fun c => !(isFailCity c)) + cities.countP isFailCity
      = cities.length := by
  induction cities with
  | nil => rfl
  | cons c cs ih => cases hc : isFailCity c <;> simp [List.countP_cons, hc, ih, Nat.add_comm] <;> omega

/-- Claim C5: for every run over N cities of which M fail (fetch or upload)
and N−M succeed, the pipeline processes every city and reports
`total_cities = N`, `failure_count = M`, `success_count = N−M`,
`success_count + failure_count = total_cities`, `len(failures) = M` (the
failed cities, in order), and min/max/avg aggregates computed only over
the N−M successfully uploaded temperatures, `None` when there are none. -/
theorem process_cities_summary (cities : List CityRun) :
    (process_cities cities).total_cities = cities.length ∧
    (process_cities cities).failure_count = cities.countP isFailCity ∧
    (process_cities cities).success_count
      = cities.length - cities.countP isFailCity ∧
    (process_cities cities).success_count + (process_cities cities).failure_count
      = (process_cities cities).total_cities ∧
    (process_cities cities).failures.length = (process_cities cities).failure_count ∧
    (process_cities cities).failures = failNames cities ∧
    (process_cities cities).min_temp_c = listMin (successTemps cities) ∧
    (process_cities cities).max_temp_c = listMax (successTemps cities) ∧
    (process_cities cities).avg_temp_c = listAvg (successTemps cities) ∧
    (successTemps cities = [] →
      (process_cities cities).min_temp_c = none ∧
      (process_cities cities).max_temp_c = none ∧
      (process_cities cities).avg_temp_c = none) := by
  have h := foldl_processCity_spec cities ⟨0, 0, [], []⟩
  have hpart := countP_fail_add cities
  obtain ⟨hs, hf, ht, hfs⟩ := h
  have hlen : (failNames cities).length = cities.countP isFailCity := by
    simp [failNames, List.countP_eq_length_filter]
  refine ⟨rfl, ?_, ?_, ?_, ?_, ?_, ?_, ?_, ?_, ?_⟩
  · simp [process_cities, hf]
  · simp [process_cities, hs]
    omega
  · simp [process_cities, hs, hf]
    omega
  · simp [process_cities, hf, hfs, hlen]
  · simp [process_cities, hfs]
  · simp [process_cities, ht]
  · simp [process_cities, ht]
  · simp [process_cities, ht]
  · intro hempty
    simp [process_cities, ht, hempty, listMin, listMax, listAvg]

/-- Claim C5 witness: a run whose only city fails to fetch has empty
aggregates. -/
theorem process_cities_summary_witness :
    successTemps [("london".data, none, true)] = [] ∧
    (process_cities [("london".data, none, true)]).min_temp_c = none ∧
    (process_cities [("london".data, none, true)]).max_temp_c = none ∧
    (process_cities [("london".data, none, true)]).avg_temp_c = none :=
  ⟨rfl, (process_cities_summary [("london".data, none, true)]).2.2.2.2.2.2.2.2.2 rfl⟩

/-- Claim C6: once a run reaches processing it completes over all cities
(the summary accounts for every input city), and the process exit status
is non-zero iff the summary's `failure_count` is positive; a run with
`failure_count = 0` exits with status 0. -/
theorem main_exit_status (cities : List CityRun) :
    (process_cities cities).total_cities = cities.length ∧
    (main_exit_code (process_cities cities) ≠ 0 ↔
      (process_cities cities).failure_count > 0) ∧
    ((process_cities cities).failure_count = 0 →
      main_exit_code (process_cities cities) = 0) := by
  refine ⟨rfl, ?_, ?_⟩
  · unfold main_exit_code
    split_ifs with hpos
    · simpa using hpos
    · simpa using hpos
  · intro h0
    simp [main_exit_code, h0]

/-- Claim C6 witness: an all-success run exits 0, a run with a failure
exits non-zero. -/
theorem main_exit_status_witness :
    main_exit_code (process_cities [("london".data, some 10, true)]) = 0 ∧
    main_exit_code (process_cities [("london".data, none, true)]) ≠ 0 :=
  ⟨(main_exit_status [("london".data, some 10, true)]).2.2 rfl,
   (main_exit_status [("london".data, none, true)]).2.1.mpr (by decide)⟩

/-- Claim C7 counterexample: for date 2026-02-18 and city "New York" the
source does NOT produce the double-slash string `2026/02/18//new_york_`
asserted by the claim: the date part is formatted with `"%Y/%m/%d"`, which
carries no trailing slash. -/
theorem build_prefix_no_double_slash :
    build_prefix_for_date_and_city (some ⟨2026, 2, 18, 0, 0, 0⟩) (some "New York".data)
      ≠ "2026/02/18//new_york_".data := by
  decide

/-- Claim C7 (amended): when both a date and a city filter are given, the
date part (with no trailing slash) and the normalized-city fragment are
joined with a single `/`; for date 2026-02-18 and city "New York" the
prefix is `2026/02/18/new_york_`. -/
theorem build_prefix_date_and_city_single_slash :
    build_prefix_for_date_and_city (some ⟨2026, 2, 18, 0, 0, 0⟩) (some "New York".data)
      = "2026/02/18/new_york_".data := by
  rfl

/-- Characters with equal code points are equal. -/
lemma char_eq_of_toNat_eq (c d : Char) (h : c.toNat = d.toNat) : c = d := by
  cases c; cases d
  simp_all [Char.toNat, UInt32.toNat]
  congr 1
  apply UInt32.ext
  exact h

/-- Lowercasing an ASCII uppercase letter adds 32 to its code point. -/
lemma toNat_pyLowerChar_upper (c : Char) (h : 65 ≤ c.toNat ∧ c.toNat ≤ 90) :
    (pyLowerChar c).toNat = c.toNat + 32 := by
  rw [pyLowerChar, if_pos h]
  have hv : (c.toNat + 32).isValidChar := Or.inl (by omega)
  unfold Char.ofNat
  rw [dif_pos hv]
  simp [Char.toNat, Char.ofNatAux, UInt32.toNat, BitVec.toNat_ofNatLt]

/-- Lowercasing fixes every character that is not an ASCII uppercase
letter. -/
lemma pyLowerChar_eq_self (c : Char) (h : ¬(65 ≤ c.toNat ∧ c.toNat ≤ 90)) :
    pyLowerChar c = c := by
  rw [pyLowerChar, if_neg h]

/-- The output of lowercasing is never an ASCII uppercase letter. -/
lemma pyLowerChar_not_upper (c : Char) :
    ¬(65 ≤ (pyLowerChar c).toNat ∧ (pyLowerChar c).toNat ≤ 90) := by
  by_cases h : 65 ≤ c.toNat ∧ c.toNat ≤ 90
  · have := toNat_pyLowerChar_upper c h
    omega
  · rw [pyLowerChar_eq_self c h]
    exact h

/-- Lowercasing a character is idempotent. -/
lemma pyLowerChar_idem (c : Char) : pyLowerChar (pyLowerChar c) = pyLowerChar c :=
  pyLowerChar_eq_self _ (pyLowerChar_not_upper c)

/-- The normalized image of any character is never a space. -/
lemma normChar_ne_space (c : Char) : normChar c ≠ ' ' := by
  by_cases hc : c = ' '
  · subst hc
    decide
  · rw [normChar, replChar, if_neg hc]
    intro he
    by_cases h : 65 ≤ c.toNat ∧ c.toNat ≤ 90
    · have h1 := toNat_pyLowerChar_upper c h
      have h2 : (pyLowerChar c).toNat = 32 := by rw [he]; rfl
      omega
    · rw [pyLowerChar_eq_self c h] at he
      exact hc he

/-- The normalized image of any character is never an ASCII uppercase
letter. -/
lemma normChar_not_upper (c : Char) :
    ¬(65 ≤ (normChar c).toNat ∧ (normChar c).toNat ≤ 90) :=
  pyLowerChar_not_upper _

/-- A character whose code point is none of the six whitespace code points
is not whitespace. -/
lemma isSpaceChar_false_of_toNat (z : Char)
    (h : ¬(z.toNat = 32 ∨ z.toNat = 9 ∨ z.toNat = 10 ∨ z.toNat = 13 ∨
           z.toNat = 11 ∨ z.toNat = 12)) : isSpaceChar z = false := by
  push_neg at h
  obtain ⟨h1, h2, h3, h4, h5, h6⟩ := h
  simp only [isSpaceChar, Bool.or_eq_false_iff, decide_eq_false_iff_not]
  refine ⟨⟨⟨⟨⟨?_, ?_⟩, ?_⟩, ?_⟩, ?_⟩, ?_⟩ <;> intro he <;>
    first
    | exact h1 (by rw [he]; rfl)
    | exact h2 (by rw [he]; rfl)
    | exact h3 (by rw [he]; rfl)
    | exact h4 (by rw [he]; rfl)
    | exact h5 (by rw [he]; rfl)
    | exact h6 (by rw [he]; rfl)

/-- A non-whitespace character is not the space character. -/
lemma ne_space_of_not_ws (c : Char) (h : isSpaceChar c = false) : c ≠ ' ' := by
  intro he
  subst he
  exact absurd h (by decide)

/-- Normalization maps non-whitespace characters to non-whitespace
characters. -/
lemma normChar_preserves_not_ws (c : Char) (h : isSpaceChar c = false) :
    isSpaceChar (normChar c) = false := by
  have hne : c ≠ ' ' := ne_space_of_not_ws c h
  rw [normChar, replChar, if_neg hne]
  by_cases hu : 65 ≤ c.toNat ∧ c.toNat ≤ 90
  · apply isSpaceChar_false_of_toNat
    have := toNat_pyLowerChar_upper c hu
    omega
  · rw [pyLowerChar_eq_self c hu]
    exact h

/-- The first element surviving `dropWhile p` does not satisfy `p`. -/
lemma dropWhile_head_not (p : Char → Bool) (l : List Char) :
    ∀ a, (l.dropWhile p).head? = some a → p a = false := by
  induction l with
  | nil => intro a h; simp at h
  | cons c t ih =>
    intro a h
    cases hp : p c with
    | true =>
      rw [List.dropWhile_cons, if_pos hp] at h
      exact ih a h
    | false =>
      rw [List.dropWhile_cons, if_neg (by simp [hp])] at h
      simp at h
      rw [← h]
      exact hp

/-- `dropWhile` removes elements only from the front, so a non-empty result
keeps the last element. -/
lemma getLast?_dropWhile_ne_nil (p : Char → Bool) (l : List Char)
    (h : l.dropWhile p ≠ []) : (l.dropWhile p).getLast? = l.getLast? := by
  induction l with
  | nil => simp at h
  | cons c t ih =>
    cases hp : p c with
    | false => rw [List.dropWhile_cons, if_neg (by simp [hp])]
    | true =>
      rw [List.dropWhile_cons, if_pos hp] at h ⊢
      cases t with
      | nil => simp at h
      | cons d ts =>
        rw [List.getLast?_cons_cons]
        exact ih h

/-- `dropWhile p` is the identity when the head does not satisfy `p`. -/
lemma dropWhile_eq_self_of_head (p : Char → Bool) (l : List Char)
    (h : ∀ a, l.head? = some a → p a = false) : l.dropWhile p = l := by
  cases l with
  | nil => rfl
  | cons c t => rw [List.dropWhile_cons, if_neg (by simp [h c rfl])]

/-- `strip()` is the identity on a string with no whitespace at either
edge. -/
lemma pyStrip_eq_self (l : List Char) (h : okEdge l) : pyStrip l = l := by
  obtain ⟨hh, hl⟩ := h
  have h1 : l.dropWhile isSpaceChar = l := dropWhile_eq_self_of_head _ _ hh
  rw [pyStrip, h1]
  have h2 : l.reverse.dropWhile isSpaceChar = l.reverse := by
    apply dropWhile_eq_self_of_head
    intro a ha
    rw [List.head?_reverse] at ha
    exact hl a ha
  rw [h2, List.reverse_reverse]

/-- The output of `strip()` has no whitespace at either edge. -/
lemma okEdge_pyStrip (l : List Char) : okEdge (pyStrip l) := by
  constructor
  · intro a ha
    rw [pyStrip, List.head?_reverse] at ha
    have hne : (l.dropWhile isSpaceChar).reverse.dropWhile isSpaceChar ≠ [] := by
      intro he
      rw [he] at ha
      simp at ha
    rw [getLast?_dropWhile_ne_nil _ _ hne, List.getLast?_reverse] at ha
    exact dropWhile_head_not _ _ a ha
  · intro a ha
    rw [pyStrip, List.getLast?_reverse] at ha
    exact dropWhile_head_not _ _ a ha

/-- Normalization as a single map over the stripped string. -/
lemma normalize_eq_map (l : List Char) :
    normalize_city_for_key l = (pyStrip l).map normChar := by
  simp only [normalize_city_for_key, pyLower, pyReplaceSpace, List.map_map]
  rfl

/-- Mapping `normChar` preserves clean edges. -/
lemma okEdge_map_normChar (l : List Char) (h : okEdge l) :
    okEdge (l.map normChar) := by
  obtain ⟨hh, hl⟩ := h
  constructor
  · intro a ha
    rw [List.head?_map] at ha
    cases hd : l.head? with
    | none => rw [hd] at ha; simp at ha
    | some b =>
      rw [hd] at ha
      simp at ha
      rw [← ha]
      exact normChar_preserves_not_ws b (hh b hd)
  · intro a ha
    rw [List.getLast?_map] at ha
    cases hd : l.getLast? with
    | none => rw [hd] at ha; simp at ha
    | some b =>
      rw [hd] at ha
      simp at ha
      rw [← ha]
      exact normChar_preserves_not_ws b (hl b hd)

/-- Claim C8: city normalization (`strip` then `replace(" ", "_")` then
`lower`) is idempotent, and its output contains no space character and no
ASCII uppercase letter. -/
theorem normalize_city_idempotent_no_space_no_upper (city : List Char) :
    normalize_city_for_key (normalize_city_for_key city)
      = normalize_city_for_key city ∧
    ∀ ch ∈ normalize_city_for_key city,
      ch ≠ ' ' ∧ ¬(65 ≤ ch.toNat ∧ ch.toNat ≤ 90) := by
  have hmem : ∀ x ∈ normalize_city_for_key city, ∃ y, x = normChar y := by
    intro x hx
    rw [normalize_eq_map] at hx
    obtain ⟨y, _, hy⟩ := List.mem_map.mp hx
    exact ⟨y, hy.symm⟩
  constructor
  · have hedge : okEdge (normalize_city_for_key city) := by
      rw [normalize_eq_map]
      exact okEdge_map_normChar _ (okEdge_pyStrip city)
    have hstrip : pyStrip (normalize_city_for_key city)
        = normalize_city_for_key city := pyStrip_eq_self _ hedge
    have hrep : pyReplaceSpace (normalize_city_for_key city)
        = normalize_city_for_key city := by
      rw [pyReplaceSpace]
      calc (normalize_city_for_key city).map replChar
          = (normalize_city_for_key city).map id :=
            List.map_congr_left (fun a ha => by
              obtain ⟨y, hy⟩ := hmem a ha
              rw [hy, replChar, if_neg (normChar_ne_space y)]
              rfl)
        _ = normalize_city_for_key city := List.map_id _
    have hlow : pyLower (normalize_city_for_key city)
        = normalize_city_for_key city := by
      rw [pyLower]
      calc (normalize_city_for_key city).map pyLowerChar
          = (normalize_city_for_key city).map id :=
            List.map_congr_left (fun a ha => by
              obtain ⟨y, hy⟩ := hmem a ha
              rw [hy]
              exact pyLowerChar_idem (replChar y))
        _ = normalize_city_for_key city := List.map_id _
    calc normalize_city_for_key (normalize_city_for_key city)
        = pyLower (pyReplaceSpace (pyStrip (normalize_city_for_key city))) := rfl
      _ = normalize_city_for_key city := by rw [hstrip, hrep, hlow]
  · intro ch hch
    obtain ⟨y, hy⟩ := hmem ch hch
    subst hy
    exact ⟨normChar_ne_space y, normChar_not_upper y⟩

/-- Claim C8 witness: normalization of "  New York " is `new_york`, is a
fixed point of normalization, and its first letter is neither a space nor
uppercase. -/
theorem normalize_city_idempotent_witness :
    normalize_city_for_key "  New York ".data = "new_york".data ∧
    normalize_city_for_key (normalize_city_for_key "  New York ".data)
      = normalize_city_for_key "  New York ".data ∧
    ('n' ≠ ' ' ∧ ¬(65 ≤ 'n'.toNat ∧ 'n'.toNat ≤ 90)) :=
  ⟨rfl,
   (normalize_city_idempotent_no_space_no_upper "  New York ".data).1,
   (normalize_city_idempotent_no_space_no_upper "  New York ".data).2 'n' (by decide)⟩

attribute [local semireducible] Rat.add Rat.sub Rat.mul Rat.inv

set_option maxRecDepth 8000 in
/-- Claim C9 counterexample: under the program's IEEE 754 float semantics
the fold is NOT order-independent. The doubles Python passes for the
literals 0.1, 0.2, 0.3 are `roundDouble` of those rationals; folding them
as listed gives `temp_sum` 0.1+0.2+0.3 = 0.6000000000000001 (the double
5404319552844596/2^53), while the reversed permutation gives 0.6 (the
double 5404319552844595/2^53), so the two final `CityStats` differ. -/
theorem city_stats_float_fold_order_dependent :
    ([roundDouble (1/10), roundDouble (2/10), roundDouble (3/10)] : List ℚ).Perm
      [roundDouble (3/10), roundDouble (2/10), roundDouble (1/10)] ∧
    (([roundDouble (1/10), roundDouble (2/10), roundDouble (3/10)] :
        List ℚ).foldl update_stats_f64 ⟨0, 0, none, none⟩).temp_sum
      ≠ (([roundDouble (3/10), roundDouble (2/10), roundDouble (1/10)] :
        List ℚ).foldl update_stats_f64 ⟨0, 0, none, none⟩).temp_sum := by
  constructor
  · decide
  · decide

/-- Closed form of `shapeStep`: the running min and max become ordinary
binary `min`/`max` once wrapped in `some`. -/
lemma shapeStep_eq (p : Nat × Option ℚ × Option ℚ) (t : ℚ) :
    shapeStep p t =
      (p.1 + 1,
       some (match p.2.1 with | none => t | some m => min t m),
       some (match p.2.2 with | none => t | some m => max t m)) := by
  rcases p with ⟨n, mn, mx⟩
  simp only [shapeStep, Prod.mk.injEq]
  refine ⟨trivial, ?_, ?_⟩
  · rcases mn with _ | m
    · rfl
    · simp only
      split_ifs with h
      · rw [min_eq_left h.le]
      · rw [min_eq_right (not_lt.mp h)]
  · rcases mx with _ | m
    · rfl
    · simp only
      split_ifs with h
      · rw [max_eq_left h.le]
      · rw [max_eq_right (not_lt.mp h)]

/-- Folding two temperatures into the sum-free part commutes. -/
lemma shapeStep_comm (p : Nat × Option ℚ × Option ℚ) (x y : ℚ) :
    shapeStep (shapeStep p x) y = shapeStep (shapeStep p y) x := by
  rw [shapeStep_eq p x, shapeStep_eq p y, shapeStep_eq, shapeStep_eq]
  simp only [Prod.mk.injEq]
  refine ⟨trivial, ?_, ?_⟩
  · rcases hz : p.2.1 with _ | m
    · simp [min_comm]
    · simp [min_left_comm]
  · rcases hz : p.2.2 with _ | m
    · simp [max_comm]
    · simp [max_left_comm]

/-- The count/min/max projection of the float fold is the `shapeStep`
fold: `temp_sum` never feeds into the other fields. -/
lemma statsShape_foldl (l : List ℚ) (s : CityStats) :
    statsShape (l.foldl update_stats_f64 s) = l.foldl shapeStep (statsShape s) := by
  induction l generalizing s with
  | nil => rfl
  | cons t ts ih => exact ih (update_stats_f64 s t)

set_option maxRecDepth 8000 in
/-- Claim C9 (amended): under the program's IEEE float semantics, `count`,
`temp_min` and `temp_max` are order-independent — every permutation of
every input yields the same values for them — but `temp_sum` (hence the
derived average) is not, as the counterexample shows; feeding [10, 20, 30]
in any of its six orders still yields count 3, sum 60, min 10, max 30 and
average 20, because sums of these small integers are exact in binary64. -/
theorem city_stats_fold_order_independence_amended :
    (∀ (s : CityStats) (l₁ l₂ : List ℚ), l₁.Perm l₂ →
      (l₁.foldl update_stats_f64 s).count = (l₂.foldl update_stats_f64 s).count ∧
      (l₁.foldl update_stats_f64 s).temp_min = (l₂.foldl update_stats_f64 s).temp_min ∧
      (l₁.foldl update_stats_f64 s).temp_max = (l₂.foldl update_stats_f64 s).temp_max) ∧
    (([10, 20, 30] : List ℚ).foldl update_stats_f64 ⟨0, 0, none, none⟩
        = ⟨3, 60, some 10, some 30⟩ ∧
     ([10, 30, 20] : List ℚ).foldl update_stats_f64 ⟨0, 0, none, none⟩
        = ⟨3, 60, some 10, some 30⟩ ∧
     ([20, 10, 30] : List ℚ).foldl update_stats_f64 ⟨0, 0, none, none⟩
        = ⟨3, 60, some 10, some 30⟩ ∧
     ([20, 30, 10] : List ℚ).foldl update_stats_f64 ⟨0, 0, none, none⟩
        = ⟨3, 60, some 10, some 30⟩ ∧
     ([30, 10, 20] : List ℚ).foldl update_stats_f64 ⟨0, 0, none, none⟩
        = ⟨3, 60, some 10, some 30⟩ ∧
     ([30, 20, 10] : List ℚ).foldl update_stats_f64 ⟨0, 0, none, none⟩
        = ⟨3, 60, some 10, some 30⟩) ∧
    (60 : ℚ) / (3 : Nat) = 20 := by
  refine ⟨?_, ?_, by norm_num⟩
  · intro s l₁ l₂ h
    have hfold := h.foldl_eq' (fun x _ y _ p => shapeStep_comm p x y) (statsShape s)
    have h12 : statsShape (l₁.foldl update_stats_f64 s)
        = statsShape (l₂.foldl update_stats_f64 s) := by
      rw [statsShape_foldl, statsShape_foldl, hfold]
    simp only [statsShape, Prod.mk.injEq] at h12
    exact ⟨h12.1, h12.2.1, h12.2.2⟩
  · refine ⟨?_, ?_, ?_, ?_, ?_, ?_⟩ <;> decide

set_option maxRecDepth 8000 in
/-- Claim C9 amended witness: the count/min/max invariance applied to the
two float permutations of the counterexample. -/
theorem city_stats_float_shape_invariance_witness :
    (([roundDouble (1/10), roundDouble (2/10), roundDouble (3/10)] :
        List ℚ).foldl update_stats_f64 ⟨0, 0, none, none⟩).count
      = (([roundDouble (3/10), roundDouble (2/10), roundDouble (1/10)] :
        List ℚ).foldl update_stats_f64 ⟨0, 0, none, none⟩).count ∧
    (([roundDouble (1/10), roundDouble (2/10), roundDouble (3/10)] :
        List ℚ).foldl update_stats_f64 ⟨0, 0, none, none⟩).temp_min
      = (([roundDouble (3/10), roundDouble (2/10), roundDouble (1/10)] :
        List ℚ).foldl update_stats_f64 ⟨0, 0, none, none⟩).temp_min ∧
    (([roundDouble (1/10), roundDouble (2/10), roundDouble (3/10)] :
        List ℚ).foldl update_stats_f64 ⟨0, 0, none, none⟩).temp_max
      = (([roundDouble (3/10), roundDouble (2/10), roundDouble (1/10)] :
        List ℚ).foldl update_stats_f64 ⟨0, 0, none, none⟩).temp_max :=
  city_stats_fold_order_independence_amended.1 ⟨0, 0, none, none⟩ _ _
    (by decide)

/-- Claim C10: a downloaded record that passes the key filter and carries a
numeric temperature is aggregated into the bucket named by the record's
own `"city"` JSON field — `unknown` when that field is missing or empty,
the field itself otherwise — and no other bucket changes; the storage key
and the city filter play no role in the bucket choice. -/
theorem aggregation_buckets_by_record_city_field
    (city_filter : Option (List Char)) (key : List Char) (doc : WeatherDoc)
    (stats : List Char → CityStats) (t : ℚ)
    (hpass : key_passes_city_filter city_filter key = true)
    (htemp : doc.temperature_c = some t) :
    process_listed_key city_filter key (some doc) stats (record_city_key doc.city)
      = update_stats (stats (record_city_key doc.city)) t ∧
    (∀ name, name ≠ record_city_key doc.city →
      process_listed_key city_filter key (some doc) stats name = stats name) ∧
    record_city_key none = "unknown".data ∧
    record_city_key (some []) = "unknown".data ∧
    (∀ s, s ≠ [] → record_city_key (some s) = s) := by
  refine ⟨?_, ?_, rfl, rfl, ?_⟩
  · rw [process_listed_key, if_pos hpass]
    simp [aggregate_record, htemp]
  · intro name hname
    rw [process_listed_key, if_pos hpass]
    simp [aggregate_record, htemp, hname]
  · intro s hs
    rw [record_city_key, if_neg hs]

/-- Claim C10 witness: with no city filter, a record whose own city field
reads "New York City" lands in the bucket of that exact spelling, even
though its storage key says `new_york`; the `london` bucket is untouched. -/
theorem aggregation_buckets_witness :
    process_listed_key none "2026/02/18/new_york_140509.json".data
        (some ⟨some "New York City".data, some 10⟩) (fun _ => ⟨0, 0, none, none⟩)
        "New York City".data
      = update_stats ⟨0, 0, none, none⟩ 10 ∧
    process_listed_key none "2026/02/18/new_york_140509.json".data
        (some ⟨some "New York City".data, some 10⟩) (fun _ => ⟨0, 0, none, none⟩)
        "london".data
      = ⟨0, 0, none, none⟩ :=
  ⟨(aggregation_buckets_by_record_city_field none _ _ _ 10 rfl rfl).1,
   (aggregation_buckets_by_record_city_field none _ _ _ 10 rfl rfl).2.1
      "london".data (by decide)⟩

end Weather
